import Mathlib

/-!
Shallow embedding of the `@alcorexchange/privy-vue` bridge:
a React "island" producer (`src/widget/PrivyWidget.tsx`) that publishes a
wallet facade on the global scope, and a Vue composable consumer
(`usePrivyWidget`) that discovers it by polling and re-exposes it
reactively.  Definitions are translated from the TypeScript source;
theorems settle the frozen claims about the spec.
-/

namespace PrivyVue

/-- A connected wallet as reported by the provider's `useWallets` hook.
`walletClientType` is `"privy"` for the embedded wallet, `"metamask"` etc.
for external wallets. -/
structure Wallet where
  address : String
  walletClientType : String
  deriving DecidableEq, Repr

/-- The `WalletInfo` snapshot type from `src/types` :
`{ address, chainType, walletClientType }`. -/
structure WalletInfo where
  address : String
  chainType : String
  walletClientType : String
  deriving DecidableEq, Repr

/-- The snapshot built by `getActiveWallet` from the chosen wallet:
`{ address: active.address, chainType: 'ethereum', walletClientType: active.walletClientType }`. -/
def toWalletInfo (w : Wallet) : WalletInfo :=
  { address := w.address, chainType := "ethereum", walletClientType := w.walletClientType }

/-- Function `getActiveWallet` from `PrivyWidget.tsx` lines 75-86:
returns `null` on an empty list, otherwise prefers the embedded
(`walletClientType === 'privy'`) wallet found by `find`, falling back to
`currentWallets[0]`, and returns a `WalletInfo` snapshot of it. -/
def getActiveWallet (wallets : List Wallet) : Option WalletInfo :=
  match wallets with
  | [] => none
  | first :: _ =>
    let embedded := wallets.find? (fun w => w.walletClientType == "privy")
    let active := embedded.getD first
    some (toWalletInfo active)

/-- Function `getEvmWallet` from `PrivyWidget.tsx` lines 89-93:
`currentWallets.find(w => w.walletClientType === 'privy') || currentWallets[0] || null`. -/
def getEvmWallet (wallets : List Wallet) : Option Wallet :=
  (wallets.find? (fun w => w.walletClientType == "privy")).orElse (fun _ => wallets.head?)

/-! ## EVM signer namespace (`PrivyWidget.tsx` lines 96-193)

Each signer closes over the live wallet list and the wallet's Ethereum
provider.  The provider's `request` channel is modelled as a function
parameter; for the signing methods it maps a `{method, params}` request to
the string the provider resolves with, and for `switchChain` (whose control
flow depends on provider failures) it maps a structured request to
`Except RpcError Unit`. -/

/-- A `provider.request({ method, params })` call with string parameters. -/
structure RpcRequest where
  method : String
  params : List String
  deriving DecidableEq, Repr

/-- Function `evmGetAddress` (lines 96-99): `wallet?.address || null`. -/
def evmGetAddress (wallets : List Wallet) : Option String :=
  (getEvmWallet wallets).map (fun w => w.address)

/-- Function `evmGetProvider` (lines 102-106): throws `'No EVM wallet available'`
when no wallet is connected, otherwise returns
`wallet.getEthereumProvider()` (the handle delivered by
`getEthereumProvider`, modelled as a parameter). -/
def evmGetProvider {P : Type} (wallets : List Wallet)
    (getEthereumProvider : Wallet → P) : Except String P :=
  match getEvmWallet wallets with
  | none => .error "No EVM wallet available"
  | some w => .ok (getEthereumProvider w)

/-- Function `evmSignMessage` (lines 109-118): rejects with
`'No EVM wallet available'` without a wallet; otherwise resolves with the
provider's answer to a `personal_sign` request carrying the message and
the wallet address. -/
def evmSignMessage (wallets : List Wallet) (provider : RpcRequest → String)
    (message : String) : Except String String :=
  match getEvmWallet wallets with
  | none => .error "No EVM wallet available"
  | some w => .ok (provider ⟨"personal_sign", [message, w.address]⟩)

/-- Function `evmSignTypedData` (lines 121-130): rejects without a wallet; otherwise
resolves with the provider's answer to an `eth_signTypedData_v4` request.
The argument is taken in its serialized form (the source serializes
non-string input with `JSON.stringify` before the request). -/
def evmSignTypedData (wallets : List Wallet) (provider : RpcRequest → String)
    (typedData : String) : Except String String :=
  match getEvmWallet wallets with
  | none => .error "No EVM wallet available"
  | some w => .ok (provider ⟨"eth_signTypedData_v4", [w.address, typedData]⟩)

/-- Function `evmGetChainId` (lines 133-139): `null` without a wallet; otherwise
`parseInt(chainId, 16)` of the provider's `eth_chainId` answer
(the hex parse itself is kept abstract as `parseHex`). -/
def evmGetChainId (wallets : List Wallet) (provider : RpcRequest → String)
    (parseHex : String → Nat) : Option Nat :=
  match getEvmWallet wallets with
  | none => none
  | some _ => some (parseHex (provider ⟨"eth_chainId", []⟩))

/-- An error thrown by the provider's `request`, carrying the numeric
`error.code` inspected by `switchChain` (4902 = unrecognized chain). -/
structure RpcError where
  code : Int
  deriving DecidableEq, Repr

/-- The parameter object of a `wallet_addEthereumChain` request. -/
structure AddChainParams where
  chainId : String
  chainName : String
  currencyName : String
  currencySymbol : String
  currencyDecimals : Nat
  rpcUrls : List String
  blockExplorerUrls : List String
  deriving DecidableEq, Repr

/-- The hardcoded Arbitrum One parameters from `PrivyWidget.tsx`
lines 158-164. -/
def arbitrumOneParams : AddChainParams :=
  { chainId := "0xa4b1"
    chainName := "Arbitrum One"
    currencyName := "ETH"
    currencySymbol := "ETH"
    currencyDecimals := 18
    rpcUrls := ["https://arb1.arbitrum.io/rpc"]
    blockExplorerUrls := ["https://arbiscan.io"] }

/-- The two structured requests `evmSwitchChain` can issue. -/
inductive ChainRequest where
  | switchChain (chainIdHex : String)
  | addChain (params : AddChainParams)
  deriving DecidableEq, Repr

/-- Rendering of `chainId.toString(16)` — lowercase hexadecimal. -/
def natToHex (n : Nat) : String :=
  String.mk (Nat.toDigits 16 n)

/-- Function `evmSwitchChain` (lines 142-173): `false` without a wallet; `true` when
the `wallet_switchEthereumChain` request succeeds; on failure, only when
`error.code === 4902 && chainId === 42161` does it fall back to a
`wallet_addEthereumChain` request with the hardcoded Arbitrum One
parameters (`true` on success, `false` on failure); every other failure
yields `false`. -/
def evmSwitchChain (wallets : List Wallet)
    (provider : ChainRequest → Except RpcError Unit) (chainId : Nat) : Bool :=
  match getEvmWallet wallets with
  | none => false
  | some _ =>
    match provider (.switchChain ("0x" ++ natToHex chainId)) with
    | .ok _ => true
    | .error e =>
      if e.code == 4902 && chainId == 42161 then
        match provider (.addChain arbitrumOneParams) with
        | .ok _ => true
        | .error _ => false
      else false

/-- Function `evmSecp256k1Sign` (lines 178-193): rejects with
`'No EVM wallet available'` without a wallet; rejects with the
embedded-only error when the active wallet's client type is not
`'privy'`; otherwise resolves with the provider's answer to a
`secp256k1_sign` request carrying the hash unmodified (no prefixing). -/
def evmSecp256k1Sign (wallets : List Wallet) (provider : RpcRequest → String)
    (hash : String) : Except String String :=
  match getEvmWallet wallets with
  | none => .error "No EVM wallet available"
  | some w =>
    if w.walletClientType != "privy" then
      .error "secp256k1_sign only works with Privy embedded wallets, not external wallets like MetaMask"
    else
      .ok (provider ⟨"secp256k1_sign", [hash]⟩)

/-! ## Ready dispatch (`PrivyWidget.tsx` lines 7-23 and 206-273)

Module-level mutable state: `readyResolve` (nulled after the promise is
resolved), `hasDispatchedReady` (the one-shot guard), and the
`onReadyCallbacksRef` registry of queued callbacks (modelled by ids).
The effect at lines 252-268 runs on every render of the widget, observing
the provider's current `ready` flag. -/

/-- The module-scoped state relevant to the ready dispatch. -/
structure ReadyState where
  hasDispatchedReady : Bool
  /-- whether `readyResolve` is still non-null -/
  readyResolveSome : Bool
  /-- ids of callbacks queued in `onReadyCallbacksRef` -/
  onReadyCallbacks : List Nat
  deriving DecidableEq, Repr

/-- What one run of the render effect did: whether it called
`readyResolve`, which queued callbacks it invoked, and whether it
dispatched the page-level `'privy-ready'` event. -/
structure ReadyDispatchOut where
  promiseResolvedNow : Bool
  invoked : List Nat
  eventDispatched : Bool
  deriving DecidableEq, Repr

/-- A render where the guarded block at lines 252-268 does not run. -/
def noDispatch : ReadyDispatchOut :=
  { promiseResolvedNow := false, invoked := [], eventDispatched := false }

/-- One run of the render effect (lines 252-268): when `ready` is observed
true and `hasDispatchedReady` is still false, set the guard, resolve the
global promise if `readyResolve` is non-null (nulling it), invoke and
clear every queued `onReady` callback, and dispatch `'privy-ready'`;
otherwise do nothing. -/
def readyDispatchEffect (ready : Bool) (s : ReadyState) :
    ReadyState × ReadyDispatchOut :=
  if ready && !s.hasDispatchedReady then
    ({ hasDispatchedReady := true, readyResolveSome := false, onReadyCallbacks := [] },
     { promiseResolvedNow := s.readyResolveSome, invoked := s.onReadyCallbacks,
       eventDispatched := true })
  else
    (s, noDispatch)

/-- Run the render effect over a sequence of observed `ready` flags,
collecting each render's dispatch output. -/
def runReadyRenders (flags : List Bool) (s : ReadyState) :
    ReadyState × List ReadyDispatchOut :=
  match flags with
  | [] => (s, [])
  | f :: fs =>
    let step := readyDispatchEffect f s
    let rest := runReadyRenders fs step.1
    (rest.1, step.2 :: rest.2)

/-- The module-load state: `getOrCreateReadyPromise()` has run (so
`readyResolve` is set), nothing dispatched yet, with `cbs` the callbacks
queued by `onReady` before the first ready render. -/
def initialReadyState (cbs : List Nat) : ReadyState :=
  { hasDispatchedReady := false, readyResolveSome := true, onReadyCallbacks := cbs }

/-- Specification of the per-render outputs: the full dispatch (promise
resolution, drain of all queued callbacks, event) happens exactly at the
first render whose `ready` flag is true, and every other render is a
no-op. -/
def dispatchSpecOuts (cbs : List Nat) : List Bool → List ReadyDispatchOut
  | [] => []
  | f :: fs =>
    if f then
      { promiseResolvedNow := true, invoked := cbs, eventDispatched := true }
        :: fs.map (fun _ => noDispatch)
    else
      noDispatch :: dispatchSpecOuts cbs fs

/-! ## lastLoginOnly effect (`PrivyWidget.tsx` lines 5, 35, 39-60) -/

/-- The `localStorage` slice restricted to the single key
`'privy-last-login-type'`, plus the `hasCheckedLastLogin` ref. -/
structure LastLoginState where
  hasChecked : Bool
  /-- `localStorage.getItem('privy-last-login-type')` (`none` = null) -/
  stored : Option String
  deriving DecidableEq, Repr

/-- JavaScript truthiness of a nullable string: null and `""` are falsy. -/
def strTruthy : Option String → Bool
  | none => false
  | some s => s != ""

/-- The provider state a render of the widget observes. -/
structure RenderInput where
  ready : Bool
  authenticated : Bool
  wallets : List Wallet
  deriving Repr

/-- One run of the lastLoginOnly effect (lines 39-60).  Returns the new
state and whether `logout()` was invoked.  Guards: the flag must be set,
the provider ready, authenticated, the wallet list non-empty, and the
check must not have run before.  Then it compares the persisted client
type with `wallets[0]?.walletClientType`: a truthy mismatch triggers
logout without persisting; otherwise a truthy current type is persisted. -/
def lastLoginEffect (lastLoginOnly : Bool) (inp : RenderInput)
    (s : LastLoginState) : LastLoginState × Bool :=
  if !lastLoginOnly then (s, false)
  else if !inp.ready || !inp.authenticated || inp.wallets.length == 0 then (s, false)
  else if s.hasChecked then (s, false)
  else
    let s1 : LastLoginState := { s with hasChecked := true }
    let lastType := s1.stored
    let currentType := inp.wallets.head?.map (fun w => w.walletClientType)
    if strTruthy lastType && strTruthy currentType && lastType != currentType then
      (s1, true)
    else
      match currentType with
      | some ct => if ct != "" then ({ s1 with stored := some ct }, false) else (s1, false)
      | none => (s1, false)

/-- Run the lastLoginOnly effect over a sequence of renders, counting how
many of them invoked `logout()`. -/
def runLastLogin (lastLoginOnly : Bool) (inps : List RenderInput)
    (s : LastLoginState) : LastLoginState × Nat :=
  match inps with
  | [] => (s, 0)
  | inp :: rest =>
    let step := lastLoginEffect lastLoginOnly inp s
    let tail := runLastLogin lastLoginOnly rest step.1
    (tail.1, (if step.2 then 1 else 0) + tail.2)

/-! ## onAuthChange registry (`PrivyWidget.tsx` lines 32, 228-235, 276-278)

`authCallbacksRef.current` is a JS `Set` of callbacks; callbacks are
modelled by ids in a duplicate-free list kept in insertion order. -/

/-- JS `Set.prototype.add`: no-op when already present, else append. -/
def setAdd {α : Type} [DecidableEq α] (reg : List α) (cb : α) : List α :=
  if cb ∈ reg then reg else reg ++ [cb]

/-- JS `Set.prototype.delete`: remove the element. -/
def setDelete {α : Type} [DecidableEq α] (reg : List α) (cb : α) : List α :=
  reg.filter (fun c => c ≠ cb)

/-- The facade's `onAuthChange` (lines 228-235): add the callback to the
registry, immediately invoke it once with the current `authenticated`
boolean.  Returns the new registry and the list of synchronous
invocations (callback, argument) this call performed; the unsubscribe
closure it hands back is `setDelete · cb`. -/
def onAuthChange {α : Type} [DecidableEq α] (reg : List α)
    (authenticated : Bool) (cb : α) : List α × List (α × Bool) :=
  (setAdd reg cb, [(cb, authenticated)])

/-- The auth-change notification effect (lines 276-278): invoke every
registered callback with the current `authenticated` boolean. -/
def notifyAuth {α : Type} (reg : List α) (authenticated : Bool) : List (α × Bool) :=
  reg.map (fun c => (c, authenticated))

/-! ## Consumer composable (`usePrivyWidget`)

The Vue composable discovers the producer's global readiness promise by
polling, stores the resolved facade in module-scoped singleton refs, and
re-exposes it.  The facade is modelled by the producer state it closes
over: the authenticated flag and the live wallet list. -/

/-- The producer facade as seen by the consumer: `getActiveWallet` and the
immediate `onAuthChange` call are determined by the provider state the
facade closes over. -/
structure FacadeModel where
  authenticated : Bool
  wallets : List Wallet
  deriving Repr

/-- The consumer's module-scoped singleton refs (`globalApi`,
`globalIsReady`, `globalIsConnected`, `globalWallet`, `initialized`). -/
structure ConsumerState where
  initialized : Bool
  globalApi : Option FacadeModel
  globalIsReady : Bool
  globalIsConnected : Bool
  globalWallet : Option WalletInfo
  deriving Repr

/-- The consumer state before any `usePrivyWidget` call ran `init`. -/
def initialConsumerState : ConsumerState :=
  { initialized := false, globalApi := none, globalIsReady := false,
    globalIsConnected := false, globalWallet := none }

/-- Poll interval of the discovery loop, in milliseconds (`setTimeout(resolve, 50)`). -/
def pollIntervalMs : Nat := 50

/-- Maximum number of poll attempts (`attempts < 100`). -/
def maxPollAttempts : Nat := 100

/-- The discovery loop
`while (!window.PrivyWidgetReady && attempts < 100) { await sleep(50); attempts++ }`.
`present t` says whether `window.PrivyWidgetReady` exists after `t`
sleeps.  The loop body runs at most `maxPollAttempts - attempts` more
times (the guard requires `attempts < maxPollAttempts`), so that much
fuel makes the recursion structural without changing the semantics. -/
def pollLoopGo (present : Nat → Bool) : Nat → Nat → Nat
  | attempts, 0 => attempts
  | attempts, fuel + 1 =>
    if !present attempts && attempts < maxPollAttempts then
      pollLoopGo present (attempts + 1) fuel
    else attempts

/-- The attempt counter when the discovery loop exits, starting from 0. -/
def pollLoop (present : Nat → Bool) : Nat :=
  pollLoopGo present 0 maxPollAttempts

/-- The auth-change subscription handler installed by `init`
(README composable lines 177-180):
`globalIsConnected.value = authenticated;`
`globalWallet.value = authenticated ? api.getActiveWallet() : null`. -/
def authChangeHandler (api : FacadeModel) (authenticated : Bool)
    (s : ConsumerState) : ConsumerState :=
  { s with globalIsConnected := authenticated
           globalWallet := if authenticated then getActiveWallet api.wallets else none }

/-- Function `init` (README composable lines 152-181).  `present` tells whether the
global promise exists after a given number of sleeps; `readyApi` is the
facade the promise resolves with when it does exist.  Returns the new
consumer state and whether the discovery-failure error was logged.
When the poll window is exhausted with the promise still absent, it logs
and returns with the state untouched.  Otherwise it awaits the promise,
marks the singleton initialized and ready, and subscribes to
`onAuthChange`, whose immediate synchronous call runs the handler with
the facade's current authenticated flag. -/
def consumerInit (present : Nat → Bool) (readyApi : FacadeModel)
    (s : ConsumerState) : ConsumerState × Bool :=
  if s.initialized && s.globalApi.isSome then (s, false)
  else
    let attempts := pollLoop present
    if !present attempts then (s, true)
    else
      let s1 : ConsumerState :=
        { s with initialized := true, globalApi := some readyApi, globalIsReady := true }
      (authChangeHandler readyApi readyApi.authenticated s1, false)

/-- The consumer's `login` proxy: rejects with `'Privy widget not ready'`
while `globalApi` is null, otherwise forwards to the facade. -/
def consumerLogin (s : ConsumerState) : Except String Unit :=
  match s.globalApi with
  | none => .error "Privy widget not ready"
  | some _ => .ok ()

/-- The consumer's `logout` proxy (same guard as `login`). -/
def consumerLogout (s : ConsumerState) : Except String Unit :=
  match s.globalApi with
  | none => .error "Privy widget not ready"
  | some _ => .ok ()

/-- The consumer's `exportWallet` proxy (same guard). -/
def consumerExportWallet (s : ConsumerState) : Except String Unit :=
  match s.globalApi with
  | none => .error "Privy widget not ready"
  | some _ => .ok ()

/-- The consumer's `evm.secp256k1Sign` proxy (README composable lines
243-246): rejects with `'Privy widget not ready'` while `globalApi` is
null, otherwise forwards the hash to the facade's signer. -/
def consumerSecp256k1Sign (s : ConsumerState) (provider : RpcRequest → String)
    (hash : String) : Except String String :=
  match s.globalApi with
  | none => .error "Privy widget not ready"
  | some api => evmSecp256k1Sign api.wallets provider hash

/-- The consumer's `evm.signMessage` proxy (same guard, forwards to the
facade's signer). -/
def consumerSignMessage (s : ConsumerState) (provider : RpcRequest → String)
    (message : String) : Except String String :=
  match s.globalApi with
  | none => .error "Privy widget not ready"
  | some api => evmSignMessage api.wallets provider message

/-- Reactive projection `address = globalWallet.value?.address ?? null`. -/
def addressProj (s : ConsumerState) : Option String :=
  s.globalWallet.map (fun w => w.address)

/-- Reactive projection `walletType = globalWallet.value?.walletClientType ?? null`. -/
def walletTypeProj (s : ConsumerState) : Option String :=
  s.globalWallet.map (fun w => w.walletClientType)

/-- Reactive projection
`isEmbeddedWallet = globalWallet.value?.walletClientType === 'privy'`. -/
def isEmbeddedWalletProj (s : ConsumerState) : Bool :=
  (s.globalWallet.map (fun w => w.walletClientType)) == some "privy"

/-- The consumer's `onReady` helper (README composable lines 259-265),
with callbacks of any type `α` and the producer's `onReady` registry made
explicit.  If `globalApi.value` is non-null, the callback is invoked
immediately (once) and a no-op unsubscribe is returned.  Otherwise the
source evaluates `globalApi.value?.onReady(callback) ?? (() => {})`: the
optional chain on null short-circuits, so nothing is registered and
nothing is invoked.  Returns (producer registry after the call, list of
immediate invocations). -/
def consumerOnReady {α : Type} (api : Option FacadeModel) (readyReg : List α)
    (cb : α) : List α × List α :=
  match api with
  | some _ => (readyReg, [cb])
  | none => (readyReg, [])

/-- The consumer's `onAuthChange` helper (README composable lines
267-276) in the pre-discovery case (`globalApi.value` null): it calls the
`onReady` helper on a wrapper closure (`(api) => api.onAuthChange(callback)`)
intending to queue the callback for discovery. -/
def consumerOnAuthChangeBeforeDiscovery {α : Type} (readyReg : List α)
    (wrapper : α) : List α × List α :=
  consumerOnReady none readyReg wrapper

/-! ## Theorems -/

/-- C2: for every wallet list, `getActiveWallet` returns `null` on the
empty list; a snapshot of a wallet whose `walletClientType` is `'privy'`
whenever one is present, regardless of position; and a snapshot of the
first wallet otherwise. -/
theorem C2_getActiveWallet_selection (wallets : List Wallet) :
    (wallets = [] → getActiveWallet wallets = none)
  ∧ ((∃ w ∈ wallets, w.walletClientType = "privy") →
      ∃ e ∈ wallets, e.walletClientType = "privy" ∧
        getActiveWallet wallets = some (toWalletInfo e))
  ∧ (∀ first rest, wallets = first :: rest →
      (∀ w ∈ wallets, w.walletClientType ≠ "privy") →
      getActiveWallet wallets = some (toWalletInfo first)) := by
  refine ⟨fun h => by subst h; rfl, ?_, ?_⟩
  · rintro ⟨w, hmem, hty⟩
    have hsome : (wallets.find? (fun w => w.walletClientType == "privy")).isSome := by
      rw [List.find?_isSome]
      exact ⟨w, hmem, by simp [hty]⟩
    obtain ⟨e, he⟩ := Option.isSome_iff_exists.mp hsome
    refine ⟨e, List.mem_of_find?_eq_some he, by simpa using List.find?_some he, ?_⟩
    cases wallets with
    | nil => cases hmem
    | cons first rest => simp only [getActiveWallet, he, Option.getD_some]
  · rintro first rest rfl hnone
    have hfind : ((first :: rest).find? (fun w => w.walletClientType == "privy")) = none := by
      rw [List.find?_eq_none]
      intro x hx
      simp [hnone x hx]
    simp only [getActiveWallet, hfind, Option.getD_none]

/-- Witness for C2 at a two-wallet list with the embedded wallet second. -/
theorem C2_getActiveWallet_selection_witness :
    ∃ e ∈ [(⟨"0xmm", "metamask"⟩ : Wallet), ⟨"0xpv", "privy"⟩],
      e.walletClientType = "privy" ∧
      getActiveWallet [⟨"0xmm", "metamask"⟩, ⟨"0xpv", "privy"⟩] =
        some (toWalletInfo e) :=
  (C2_getActiveWallet_selection [⟨"0xmm", "metamask"⟩, ⟨"0xpv", "privy"⟩]).2.1
    ⟨⟨"0xpv", "privy"⟩, by simp, rfl⟩

/-- C3: `secp256k1Sign` rejects when no wallet is connected and when the
active wallet's client type is not `'privy'`, and otherwise resolves with
the provider's raw answer to the `secp256k1_sign` request, the hash
passed through with no message prefixing. -/
theorem C3_secp256k1Sign_embedded_only (wallets : List Wallet)
    (provider : RpcRequest → String) (hash : String) :
    (getEvmWallet wallets = none →
      evmSecp256k1Sign wallets provider hash = .error "No EVM wallet available")
  ∧ (∀ w, getEvmWallet wallets = some w → w.walletClientType ≠ "privy" →
      evmSecp256k1Sign wallets provider hash =
        .error "secp256k1_sign only works with Privy embedded wallets, not external wallets like MetaMask")
  ∧ (∀ w, getEvmWallet wallets = some w → w.walletClientType = "privy" →
      evmSecp256k1Sign wallets provider hash =
        .ok (provider ⟨"secp256k1_sign", [hash]⟩)) := by
  refine ⟨fun h => by simp [evmSecp256k1Sign, h], ?_, ?_⟩
  · intro w hw hty
    simp [evmSecp256k1Sign, hw, hty]
  · intro w hw hty
    simp [evmSecp256k1Sign, hw, hty]

/-- Witness for C3: the embedded wallet resolves with the raw provider
signature; an external active wallet rejects. -/
theorem C3_secp256k1Sign_embedded_only_witness :
    evmSecp256k1Sign [⟨"0xpv", "privy"⟩] (fun r => String.intercalate "," r.params)
        "0xdeadbeef" = .ok "0xdeadbeef" := by
  have h := (C3_secp256k1Sign_embedded_only [⟨"0xpv", "privy"⟩]
    (fun r => String.intercalate "," r.params) "0xdeadbeef").2.2
    ⟨"0xpv", "privy"⟩ rfl rfl
  rw [h]
  rfl

/-- C9: with an empty wallet list every wallet-requiring EVM signer fails
per its declared contract: `getAddress` and `getChainId` return `null`,
`switchChain` returns `false`, and the async signers reject with the
explicit `'No EVM wallet available'` error. -/
theorem C9_no_wallet_explicit_failures {P : Type} (gep : Wallet → P)
    (provider : RpcRequest → String) (cprov : ChainRequest → Except RpcError Unit)
    (parseHex : String → Nat) (message typedData hash : String) (chainId : Nat) :
    evmGetAddress [] = none
  ∧ evmGetChainId [] provider parseHex = none
  ∧ evmSwitchChain [] cprov chainId = false
  ∧ evmSignMessage [] provider message = .error "No EVM wallet available"
  ∧ evmSignTypedData [] provider typedData = .error "No EVM wallet available"
  ∧ evmGetProvider [] gep = .error "No EVM wallet available"
  ∧ evmSecp256k1Sign [] provider hash = .error "No EVM wallet available" :=
  ⟨rfl, rfl, rfl, rfl, rfl, rfl, rfl⟩

/-- C6: `onAuthChange` adds the callback to the registry, invokes it
immediately and synchronously exactly once with the current authenticated
boolean, and the unsubscribe closure removes it so later notifications
skip it. -/
theorem C6_onAuthChange_contract {α : Type} [DecidableEq α] (reg : List α)
    (authenticated : Bool) (cb : α) :
    cb ∈ (onAuthChange reg authenticated cb).1
  ∧ (onAuthChange reg authenticated cb).2 = [(cb, authenticated)]
  ∧ cb ∉ setDelete (onAuthChange reg authenticated cb).1 cb
  ∧ ∀ b : Bool, (cb, b) ∉ notifyAuth (setDelete (onAuthChange reg authenticated cb).1 cb) b := by
  refine ⟨?_, rfl, ?_, ?_⟩
  · simp only [onAuthChange, setAdd]
    split
    · assumption
    · simp
  · simp [setDelete, List.mem_filter]
  · intro b
    simp [notifyAuth, setDelete, List.mem_filter, List.mem_map]

/-- Witness for C6 at a concrete registry. -/
theorem C6_onAuthChange_contract_witness :
    (7 : Nat) ∈ (onAuthChange [1, 2] true 7).1
  ∧ (onAuthChange [1, 2] true 7).2 = [(7, true)]
  ∧ (7 : Nat) ∉ setDelete (onAuthChange [1, 2] true 7).1 7
  ∧ ∀ b : Bool, ((7 : Nat), b) ∉ notifyAuth (setDelete (onAuthChange [1, 2] true 7).1 7) b :=
  C6_onAuthChange_contract [1, 2] true 7

/-- C10: after the consumer's auth-change handler runs, a false
authenticated flag leaves the shared wallet snapshot `null` (so address,
walletType and isEmbeddedWallet derive to their empty values), and a true
flag stores the facade's current `getActiveWallet()` result. -/
theorem C10_auth_handler_invariant (api : FacadeModel) (auth : Bool)
    (s : ConsumerState) :
    ((authChangeHandler api auth s).globalWallet =
      if auth then getActiveWallet api.wallets else none)
  ∧ (auth = false →
      (authChangeHandler api auth s).globalWallet = none
      ∧ addressProj (authChangeHandler api auth s) = none
      ∧ walletTypeProj (authChangeHandler api auth s) = none
      ∧ isEmbeddedWalletProj (authChangeHandler api auth s) = false)
  ∧ (auth = true →
      (authChangeHandler api auth s).globalWallet = getActiveWallet api.wallets) := by
  refine ⟨rfl, ?_, ?_⟩
  · rintro rfl
    simp [authChangeHandler, addressProj, walletTypeProj, isEmbeddedWalletProj]
  · rintro rfl
    rfl

/-- Witness for C10 at a logout notification over a concrete state. -/
theorem C10_auth_handler_invariant_witness :
    (authChangeHandler ⟨false, [⟨"0xpv", "privy"⟩]⟩ false initialConsumerState).globalWallet = none
  ∧ addressProj (authChangeHandler ⟨false, [⟨"0xpv", "privy"⟩]⟩ false initialConsumerState) = none
  ∧ walletTypeProj (authChangeHandler ⟨false, [⟨"0xpv", "privy"⟩]⟩ false initialConsumerState) = none
  ∧ isEmbeddedWalletProj (authChangeHandler ⟨false, [⟨"0xpv", "privy"⟩]⟩ false initialConsumerState) = false :=
  (C10_auth_handler_invariant ⟨false, [⟨"0xpv", "privy"⟩]⟩ false initialConsumerState).2.1 rfl

/-- C8 (divergence witness): called before discovery (`globalApi` null),
the consumer's `onReady` helper — and hence the pre-discovery path of its
`onAuthChange` helper — registers nothing in any registry and performs no
invocation, so the callback is dropped instead of queued. -/
theorem C8_prediscovery_subscription_dropped {α : Type} (readyReg : List α)
    (cb wrapper : α) :
    consumerOnReady none readyReg cb = (readyReg, [])
  ∧ consumerOnAuthChangeBeforeDiscovery readyReg wrapper = (readyReg, []) :=
  ⟨rfl, rfl⟩

/-- Once the one-shot guard is set, every later render of the ready
effect is a no-op. -/
theorem runReadyRenders_after_dispatch (fs : List Bool) (s : ReadyState)
    (h : s.hasDispatchedReady = true) :
    runReadyRenders fs s = (s, fs.map fun _ => noDispatch) := by
  induction fs with
  | nil => rfl
  | cons f fs ih =>
    simp [runReadyRenders, readyDispatchEffect, h, ih]

/-- The event count of the per-render dispatch specification. -/
theorem countP_dispatchSpecOuts (cbs : List Nat) (flags : List Bool) :
    (dispatchSpecOuts cbs flags).countP (fun o => o.eventDispatched) =
      (if flags.contains true then 1 else 0) := by
  induction flags with
  | nil => rfl
  | cons f fs ih =>
    cases f
    · simpa [dispatchSpecOuts, List.countP_cons, noDispatch] using ih
    · simp [dispatchSpecOuts, List.countP_cons, noDispatch, List.countP_map,
        Function.comp]

/-- C1: starting from the module-load state, the ready-dispatch sequence
(promise resolution, drain-and-clear of every queued `onReady` callback,
`'privy-ready'` event) runs exactly at the first render that observes
`ready = true` and at no other render; in particular the event is
dispatched exactly once when any render is ready and never otherwise. -/
theorem C1_ready_dispatch_once (flags : List Bool) (cbs : List Nat) :
    (runReadyRenders flags (initialReadyState cbs)).2 = dispatchSpecOuts cbs flags
  ∧ ((runReadyRenders flags (initialReadyState cbs)).2.countP
      (fun o => o.eventDispatched)) = (if flags.contains true then 1 else 0) := by
  have main : (runReadyRenders flags (initialReadyState cbs)).2 = dispatchSpecOuts cbs flags := by
    induction flags with
    | nil => rfl
    | cons f fs ih =>
      cases f
      · simpa [runReadyRenders, readyDispatchEffect, initialReadyState,
          dispatchSpecOuts, noDispatch] using ih
      · have h2 := runReadyRenders_after_dispatch fs
          ⟨true, false, ([] : List Nat)⟩ rfl
        simp [runReadyRenders, readyDispatchEffect, initialReadyState,
          dispatchSpecOuts, h2]
  exact ⟨main, by rw [main, countP_dispatchSpecOuts]⟩

/-- C4: with a wallet connected, `switchChain` returns `true` when the
provider's switch request succeeds; when it fails with code 4902 and the
requested id is 42161, it issues the `wallet_addEthereumChain` fallback
with the hardcoded Arbitrum One parameters and returns its success; any
other failure yields `false`. -/
theorem C4_switchChain_fallback (wallets : List Wallet)
    (provider : ChainRequest → Except RpcError Unit) (chainId : Nat) (w : Wallet)
    (hw : getEvmWallet wallets = some w) :
    (provider (.switchChain ("0x" ++ natToHex chainId)) = .ok () →
        evmSwitchChain wallets provider chainId = true)
  ∧ (∀ e, provider (.switchChain ("0x" ++ natToHex chainId)) = .error e →
      e.code = 4902 → chainId = 42161 →
        (provider (.addChain arbitrumOneParams) = .ok () →
            evmSwitchChain wallets provider chainId = true)
      ∧ (∀ e2, provider (.addChain arbitrumOneParams) = .error e2 →
            evmSwitchChain wallets provider chainId = false))
  ∧ (∀ e, provider (.switchChain ("0x" ++ natToHex chainId)) = .error e →
      ¬(e.code = 4902 ∧ chainId = 42161) →
        evmSwitchChain wallets provider chainId = false) := by
  refine ⟨?_, ?_, ?_⟩
  · intro h
    simp [evmSwitchChain, hw, h]
  · intro e he hc hid
    subst hid
    constructor
    · intro ha
      simp [evmSwitchChain, hw, he, ha, hc]
    · intro e2 ha
      simp [evmSwitchChain, hw, he, ha, hc]
  · intro e he hne
    have hcond : (e.code == 4902 && chainId == 42161) = false := by
      rcases not_and_or.mp hne with h | h <;> simp [h]
    simp [evmSwitchChain, hw, he, hcond]

/-- Witness for C4: a provider that rejects the switch with code 4902 and
accepts the add-chain fallback makes `switchChain 42161` return true. -/
theorem C4_switchChain_fallback_witness :
    evmSwitchChain [⟨"0xpv", "privy"⟩]
      (fun r => match r with
        | .switchChain _ => .error ⟨4902⟩
        | .addChain _ => .ok ()) 42161 = true :=
  ((C4_switchChain_fallback [⟨"0xpv", "privy"⟩]
      (fun r => match r with
        | .switchChain _ => .error ⟨4902⟩
        | .addChain _ => .ok ()) 42161 ⟨"0xpv", "privy"⟩ rfl).2.1
    ⟨4902⟩ rfl rfl rfl).1 rfl

/-- Once `hasCheckedLastLogin` is set, the lastLoginOnly effect is a
no-op on every later render. -/
theorem lastLoginEffect_checked (lastLoginOnly : Bool) (inp : RenderInput)
    (s : LastLoginState) (h : s.hasChecked = true) :
    lastLoginEffect lastLoginOnly inp s = (s, false) := by
  unfold lastLoginEffect
  split
  · rfl
  · split
    · rfl
    · simp [h]

/-- Folding the lastLoginOnly effect over any renders from a checked
state changes nothing and performs no logout. -/
theorem runLastLogin_checked (lastLoginOnly : Bool) (inps : List RenderInput)
    (s : LastLoginState) (h : s.hasChecked = true) :
    runLastLogin lastLoginOnly inps s = (s, 0) := by
  induction inps with
  | nil => rfl
  | cons inp rest ih =>
    simp [runLastLogin, lastLoginEffect_checked lastLoginOnly inp s h, ih]

/-- The first qualifying strict-mode render always sets the one-shot
guard, whatever the persisted value is. -/
theorem lastLoginEffect_sets_checked (inp : RenderInput) (s : LastLoginState)
    (hready : inp.ready = true) (hauth : inp.authenticated = true)
    (hlen : (inp.wallets.length == 0) = false) (hchk : s.hasChecked = false) :
    (lastLoginEffect true inp s).1.hasChecked = true := by
  unfold lastLoginEffect
  rw [hready, hauth, hlen, hchk]
  simp only [Bool.not_true, Bool.or_false, Bool.false_or, Bool.or_self,
    Bool.false_eq_true, if_false]
  split
  · rfl
  · split
    · split
      · rfl
      · rfl
    · rfl

/-- C5: in strict last-login mode, on the first render that is ready,
authenticated and has a wallet: a non-empty persisted type differing
from the current wallet's type triggers logout and leaves the persisted
value unchanged; a matching or absent persisted value persists the
current type without logout; and from the resulting state (guard set)
any sequence of later renders changes nothing and performs no logout. -/
theorem C5_lastLogin_strict_once (s : LastLoginState) (inp : RenderInput)
    (w : Wallet) (rest : List Wallet) (hw : inp.wallets = w :: rest)
    (hready : inp.ready = true) (hauth : inp.authenticated = true)
    (hchk : s.hasChecked = false) (hct : w.walletClientType ≠ "") :
    (∀ t, s.stored = some t → t ≠ "" → t ≠ w.walletClientType →
        lastLoginEffect true inp s = (⟨true, s.stored⟩, true))
  ∧ (s.stored = some w.walletClientType →
        lastLoginEffect true inp s = (⟨true, some w.walletClientType⟩, false))
  ∧ (s.stored = none →
        lastLoginEffect true inp s = (⟨true, some w.walletClientType⟩, false))
  ∧ (∀ lastLoginOnly inps,
        runLastLogin lastLoginOnly inps (lastLoginEffect true inp s).1 =
          ((lastLoginEffect true inp s).1, 0)) := by
  have hlen : (inp.wallets.length == 0) = false := by simp [hw]
  have hhead : inp.wallets.head? = some w := by rw [hw]; rfl
  refine ⟨?_, ?_, ?_, ?_⟩
  · intro t hst ht hne
    simp [lastLoginEffect, hready, hauth, hlen, hchk, hhead, hst, strTruthy,
      ht, hct, hne]
  · intro hst
    simp [lastLoginEffect, hready, hauth, hlen, hchk, hhead, hst, strTruthy, hct]
  · intro hst
    simp [lastLoginEffect, hready, hauth, hlen, hchk, hhead, hst, strTruthy, hct]
  · intro lastLoginOnly inps
    exact runLastLogin_checked lastLoginOnly inps _
      (lastLoginEffect_sets_checked inp s hready hauth hlen hchk)

/-- Witness for C5: persisted `"metamask"`, new wallet `"privy"` — logout
fires and the persisted value stays `"metamask"`. -/
theorem C5_lastLogin_strict_once_witness :
    lastLoginEffect true ⟨true, true, [⟨"0xpv", "privy"⟩]⟩ ⟨false, some "metamask"⟩ =
      (⟨true, some "metamask"⟩, true) :=
  (C5_lastLogin_strict_once ⟨false, some "metamask"⟩ ⟨true, true, [⟨"0xpv", "privy"⟩]⟩
      ⟨"0xpv", "privy"⟩ [] rfl rfl rfl rfl (by decide)).1
    "metamask" rfl (by decide) (by decide)

/-- The discovery loop performs at most `fuel` more attempts. -/
theorem pollLoopGo_le (present : Nat → Bool) (attempts fuel : Nat) :
    pollLoopGo present attempts fuel ≤ attempts + fuel := by
  induction fuel generalizing attempts with
  | zero => simp [pollLoopGo]
  | succ n ih =>
    simp only [pollLoopGo]
    split
    · exact le_trans (ih (attempts + 1)) (by omega)
    · omega

/-- When the global promise never appears, the discovery loop runs to the
attempt cap. -/
theorem pollLoopGo_absent (present : Nat → Bool) (h : ∀ t, present t = false)
    (attempts fuel : Nat) (hsum : attempts + fuel = maxPollAttempts) :
    pollLoopGo present attempts fuel = maxPollAttempts := by
  induction fuel generalizing attempts with
  | zero => simpa using hsum
  | succ n ih =>
    have hlt : attempts < maxPollAttempts := by omega
    simp only [pollLoopGo, h, hlt]
    simp only [Bool.not_false, Bool.true_and, decide_eq_true_eq, if_pos hlt]
    exact ih (attempts + 1) (by omega)

/-- C7: discovery polls at a 50ms interval for at most 100 attempts; when
the global readiness promise never appears, `init` exhausts the window,
logs the error and returns with the singleton state untouched (ready
stays false), after which `login`, `logout`, `exportWallet` and the
wallet-requiring signer proxies all reject with the
`'Privy widget not ready'` error. -/
theorem C7_discovery_timeout (present : Nat → Bool) (readyApi : FacadeModel)
    (provider : RpcRequest → String) (message hash : String)
    (h : ∀ t, present t = false) :
    pollIntervalMs = 50
  ∧ (∀ p : Nat → Bool, pollLoop p ≤ maxPollAttempts)
  ∧ pollLoop present = maxPollAttempts
  ∧ consumerInit present readyApi initialConsumerState = (initialConsumerState, true)
  ∧ (consumerInit present readyApi initialConsumerState).1.globalIsReady = false
  ∧ consumerLogin initialConsumerState = .error "Privy widget not ready"
  ∧ consumerLogout initialConsumerState = .error "Privy widget not ready"
  ∧ consumerExportWallet initialConsumerState = .error "Privy widget not ready"
  ∧ consumerSecp256k1Sign initialConsumerState provider hash =
      .error "Privy widget not ready"
  ∧ consumerSignMessage initialConsumerState provider message =
      .error "Privy widget not ready" := by
  have hpoll : pollLoop present = maxPollAttempts :=
    pollLoopGo_absent present h 0 maxPollAttempts rfl
  have hinit : consumerInit present readyApi initialConsumerState =
      (initialConsumerState, true) := by
    simp [consumerInit, initialConsumerState, hpoll, h]
  refine ⟨rfl, ?_, hpoll, hinit, by rw [hinit]; rfl, rfl, rfl, rfl, rfl, rfl⟩
  intro p
  simpa using pollLoopGo_le p 0 maxPollAttempts

/-- Witness for C7 with a promise that never appears. -/
theorem C7_discovery_timeout_witness :
    pollLoop (fun _ => false) = maxPollAttempts
  ∧ consumerInit (fun _ => false) ⟨false, []⟩ initialConsumerState =
      (initialConsumerState, true)
  ∧ consumerLogin initialConsumerState = .error "Privy widget not ready" :=
  let c := C7_discovery_timeout (fun _ => false) ⟨false, []⟩ (fun _ => "") "" ""
    (fun _ => rfl)
  ⟨c.2.2.1, c.2.2.2.1, c.2.2.2.2.2.1⟩

end PrivyVue
